import Mathlib

/-!
Verification of the Purchase-to-Pay workflow core (models.py, workflow.py,
kg_reasoning.py) against its specification.

Modelling conventions:
* Python floats are modelled as exact rationals (`ℚ`); `float('inf')` as the
  `none` case of an `Option ℚ` upper bound.
* `datetime.now()` is modelled by an explicit `now : Nat` argument threaded
  into every operation that stamps a timestamp.
* The three `Dict[str, ...]` document stores are modelled as association
  lists `List (String × α)`; `dict.get` is `List.lookup` and in-place
  mutation of the object found by `get` is `updFirst` (update the first
  entry with the given key).
* Python exceptions that the reasoning code can raise (`ZeroDivisionError`
  from the unguarded division in `detect_three_way_match_issues`) are
  modelled with `Except String`.
-/

/-- Status enum for purchase orders (models.py `POStatus`). -/
inductive POStatus where
  | draft
  | pendingApproval
  | approved
  | rejected
  | inProgress
  | completed
  | cancelled
  | blocked
deriving DecidableEq, Repr

/-- Status enum for goods receipts (models.py `GRStatus`). -/
inductive GRStatus where
  | draft
  | received
  | qualityCheck
  | accepted
  | rejected
  | blocked
deriving DecidableEq, Repr

/-- Status enum for invoices (models.py `InvoiceStatus`). -/
inductive InvoiceStatus where
  | draft
  | pendingApproval
  | approved
  | rejected
  | paid
  | overdue
  | blocked
deriving DecidableEq, Repr

/-- Payment terms enum (models.py `PaymentTerms`). -/
inductive PaymentTerms where
  | net30
  | net60
  | net90
  | immediate
  | dueOnReceipt
deriving DecidableEq, Repr

/-- Approval policy configuration (models.py `ApprovalPolicy`).
`max_amount : Option ℚ` models the float field whose default is
`float('inf')`: `none` stands for an unbounded upper end. -/
structure ApprovalPolicy where
  id : String := ""
  name : String := ""
  description : String := ""
  min_amount : ℚ := 0
  max_amount : Option ℚ := none
  required_approvers : List String := []
  approval_levels : Nat := 1
deriving DecidableEq, Repr

/-- models.py `ApprovalPolicy.is_applicable`: `min_amount <= amount <= max_amount`. -/
def ApprovalPolicy.is_applicable (p : ApprovalPolicy) (amount : ℚ) : Bool :=
  decide (p.min_amount ≤ amount) &&
    (match p.max_amount with
     | none => true
     | some m => decide (amount ≤ m))

/-- Individual approval record (models.py `ApprovalRecord`); the status
field is a plain string, as in the source ("Pending", "Approved", "Rejected"). -/
structure ApprovalRecord where
  id : String := ""
  approver : String := ""
  status : String := "Pending"
  comments : String := ""
  timestamp : Nat := 0
deriving DecidableEq, Repr

/-- Line item for PO/Invoice (models.py `LineItem`). -/
structure LineItem where
  id : String := ""
  item_code : String := ""
  description : String := ""
  quantity : ℚ := 0
  unit_price : ℚ := 0
  tax_rate : ℚ := 0
deriving DecidableEq, Repr

/-- models.py `LineItem.subtotal`. -/
def LineItem.subtotal (it : LineItem) : ℚ :=
  it.quantity * it.unit_price

/-- models.py `LineItem.tax_amount`. -/
def LineItem.tax_amount (it : LineItem) : ℚ :=
  it.subtotal * it.tax_rate

/-- models.py `LineItem.total`. -/
def LineItem.total (it : LineItem) : ℚ :=
  it.subtotal + it.tax_amount

/-- Purchase order (models.py `PurchaseOrder`). -/
structure PurchaseOrder where
  id : String := ""
  po_number : String := ""
  vendor_id : String := ""
  vendor_name : String := ""
  requester : String := ""
  department : String := ""
  status : POStatus := .draft
  creation_date : Nat := 0
  approval_date : Option Nat := none
  line_items : List LineItem := []
  payment_terms : PaymentTerms := .net30
  delivery_address : String := ""
  notes : String := ""
  approvals : List ApprovalRecord := []
  applicable_policy : Option ApprovalPolicy := none
  blocked_reason : String := ""
deriving DecidableEq, Repr

/-- The loop in models.py `PurchaseOrder.approve` / `reject`: mark the FIRST
approval record whose approver matches and whose status is "Pending" with the
given new status, comments and timestamp, then stop (`break`). -/
def markFirstPending (newStatus : String) (approver comments : String) (now : Nat) :
    List ApprovalRecord → List ApprovalRecord
  | [] => []
  | a :: rest =>
    if a.approver = approver ∧ a.status = "Pending" then
      { a with status := newStatus, comments := comments, timestamp := now } :: rest
    else
      a :: markFirstPending newStatus approver comments now rest

/-- models.py `PurchaseOrder.approve`: mark the first Pending record of this
approver "Approved"; if afterwards all records are "Approved", set the PO
status to Approved and stamp `approval_date`. -/
def PurchaseOrder.approve (po : PurchaseOrder) (approver : String) (comments : String)
    (now : Nat) : PurchaseOrder :=
  let po := { po with approvals := markFirstPending "Approved" approver comments now po.approvals }
  if po.approvals.all (fun a => a.status = "Approved") then
    { po with status := .approved, approval_date := some now }
  else
    po

/-- models.py `PurchaseOrder.reject`: mark the first Pending record of this
approver "Rejected", then unconditionally set the PO status to Rejected. -/
def PurchaseOrder.reject (po : PurchaseOrder) (approver : String) (comments : String)
    (now : Nat) : PurchaseOrder :=
  let po := { po with approvals := markFirstPending "Rejected" approver comments now po.approvals }
  { po with status := .rejected }

/-- Goods receipt (models.py `GoodsReceipt`). -/
structure GoodsReceipt where
  id : String := ""
  gr_number : String := ""
  po_id : String := ""
  po_number : String := ""
  status : GRStatus := .draft
  receipt_date : Nat := 0
  received_by : String := ""
  line_items : List LineItem := []
  notes : String := ""
  quality_checked : Bool := false
  quality_checker : String := ""
  quality_check_date : Option Nat := none
  blocked_reason : String := ""
deriving DecidableEq, Repr

/-- models.py `GoodsReceipt.total_amount`. -/
def GoodsReceipt.total_amount (gr : GoodsReceipt) : ℚ :=
  (gr.line_items.map LineItem.total).sum

/-- models.py `GoodsReceipt.receive_goods`. -/
def GoodsReceipt.receive_goods (gr : GoodsReceipt) (now : Nat) : GoodsReceipt :=
  { gr with status := .received, receipt_date := now }

/-- models.py `GoodsReceipt.perform_quality_check`. -/
def GoodsReceipt.perform_quality_check (gr : GoodsReceipt) (checker : String)
    (passed : Bool) (now : Nat) : GoodsReceipt :=
  { gr with
    quality_checked := true
    quality_checker := checker
    quality_check_date := some now
    status := if passed then .accepted else .rejected }

/-- Invoice (models.py `Invoice`). -/
structure Invoice where
  id : String := ""
  invoice_number : String := ""
  po_id : String := ""
  po_number : String := ""
  gr_id : String := ""
  gr_number : String := ""
  vendor_id : String := ""
  vendor_name : String := ""
  status : InvoiceStatus := .draft
  invoice_date : Nat := 0
  due_date : Option Nat := none
  payment_date : Option Nat := none
  payment_terms : PaymentTerms := .net30
  line_items : List LineItem := []
  notes : String := ""
  approvals : List ApprovalRecord := []
  applicable_policy : Option ApprovalPolicy := none
  blocked_reason : String := ""
deriving DecidableEq, Repr

/-- models.py `Invoice.total_amount`. -/
def Invoice.total_amount (inv : Invoice) : ℚ :=
  (inv.line_items.map LineItem.total).sum

/-- models.py `Invoice.block`: set status to Blocked and record the reason. -/
def Invoice.block (inv : Invoice) (reason : String) : Invoice :=
  { inv with status := .blocked, blocked_reason := reason }

/-- models.py `Invoice.unblock`: only when currently Blocked, revert to Draft
and clear the reason; otherwise do nothing. -/
def Invoice.unblock (inv : Invoice) : Invoice :=
  if inv.status = .blocked then
    { inv with status := .draft, blocked_reason := "" }
  else
    inv

/-- Update the first entry of an association list whose key matches `k`,
leaving the rest untouched.  This models Python `dict.get(k)` followed by an
in-place mutation of the retrieved object: exactly the entry that
`List.lookup` returns changes. -/
def updFirst {α : Type} (k : String) (f : α → α) : List (String × α) → List (String × α)
  | [] => []
  | kv :: rest =>
    if kv.1 = k then (kv.1, f kv.2) :: rest
    else kv :: updFirst k f rest

/-- Workflow state (workflow.py `P2PWorkflow.__init__`): three document
stores keyed by document id plus the approval-policy list. -/
structure P2PWorkflow where
  purchase_orders : List (String × PurchaseOrder) := []
  goods_receipts : List (String × GoodsReceipt) := []
  invoices : List (String × Invoice) := []
  approval_policies : List ApprovalPolicy := []
deriving DecidableEq, Repr

/-- workflow.py `P2PWorkflow.add_approval_policy`: append the policy, then
sort the list ascending by `min_amount` (Python `list.sort` is stable;
`List.insertionSort` is its stable counterpart here). -/
def P2PWorkflow.add_approval_policy (w : P2PWorkflow) (policy : ApprovalPolicy) :
    P2PWorkflow :=
  { w with approval_policies := List.insertionSort
             (fun p q => p.min_amount ≤ q.min_amount) (w.approval_policies ++ [policy]) }

/-- workflow.py `P2PWorkflow.get_applicable_policy`: scan the policy list in
reverse (highest `min_amount` first) and return the first applicable policy. -/
def P2PWorkflow.get_applicable_policy (w : P2PWorkflow) (amount : ℚ) :
    Option ApprovalPolicy :=
  w.approval_policies.reverse.find? (fun p => p.is_applicable amount)

/-- workflow.py `P2PWorkflow.approve_po`: fail unless the PO exists and is
PendingApproval, otherwise delegate to `PurchaseOrder.approve` in place. -/
def P2PWorkflow.approve_po (w : P2PWorkflow) (po_id approver comments : String)
    (now : Nat) : Bool × P2PWorkflow :=
  match w.purchase_orders.lookup po_id with
  | none => (false, w)
  | some po =>
    if po.status = .pendingApproval then
      (true, { w with purchase_orders :=
                 updFirst po_id (fun p => p.approve approver comments now) w.purchase_orders })
    else
      (false, w)

/-- workflow.py `P2PWorkflow.reject_po`: fail unless the PO exists and is
PendingApproval, otherwise delegate to `PurchaseOrder.reject` in place. -/
def P2PWorkflow.reject_po (w : P2PWorkflow) (po_id approver comments : String)
    (now : Nat) : Bool × P2PWorkflow :=
  match w.purchase_orders.lookup po_id with
  | none => (false, w)
  | some po =>
    if po.status = .pendingApproval then
      (true, { w with purchase_orders :=
                 updFirst po_id (fun p => p.reject approver comments now) w.purchase_orders })
    else
      (false, w)

/-- workflow.py `P2PWorkflow.create_goods_receipt`: fail (returning `none`
and an unchanged state) unless the PO exists and is Approved; otherwise build
the GR, call `receive_goods` (status Received), store it, and set the PO
status to InProgress.  The generated uuid of the new GR and the timestamp are
explicit arguments. -/
def P2PWorkflow.create_goods_receipt (w : P2PWorkflow) (po_id received_by : String)
    (line_items : List LineItem) (notes : String) (gr_id : String) (now : Nat) :
    Option GoodsReceipt × P2PWorkflow :=
  match w.purchase_orders.lookup po_id with
  | none => (none, w)
  | some po =>
    if po.status = .approved then
      let gr : GoodsReceipt :=
        { id := gr_id, gr_number := gr_id, po_id := po.id, po_number := po.po_number,
          received_by := received_by, notes := notes, line_items := line_items }
      let gr := gr.receive_goods now
      let w := { w with goods_receipts := w.goods_receipts ++ [(gr.id, gr)] }
      let w := { w with purchase_orders :=
                   updFirst po_id (fun p => { p with status := .inProgress }) w.purchase_orders }
      (some gr, w)
    else
      (none, w)

/-- workflow.py `P2PWorkflow.perform_quality_check`: fail unless the GR exists
and is Received; run the quality check on the GR; if it passed, look up the
referenced PO and, if every GR whose `po_id` matches it is now Accepted, set
the PO status to Completed. -/
def P2PWorkflow.perform_quality_check (w : P2PWorkflow) (gr_id checker : String)
    (passed : Bool) (now : Nat) : Bool × P2PWorkflow :=
  match w.goods_receipts.lookup gr_id with
  | none => (false, w)
  | some gr =>
    if gr.status = .received then
      let gr' := gr.perform_quality_check checker passed now
      let w := { w with goods_receipts := updFirst gr_id (fun _ => gr') w.goods_receipts }
      if passed then
        match w.purchase_orders.lookup gr'.po_id with
        | none => (true, w)
        | some po =>
          let po_grs := w.goods_receipts.filter (fun kv => kv.2.po_id = po.id)
          if po_grs.all (fun kv => kv.2.status = .accepted) then
            (true, { w with purchase_orders := updFirst gr'.po_id (fun p => { p with status := .completed }) w.purchase_orders })
          else
            (true, w)
      else
        (true, w)
    else
      (false, w)

/-- workflow.py `P2PWorkflow.block_invoice`: fail if the invoice is missing,
otherwise `Invoice.block` in place and return True. -/
def P2PWorkflow.block_invoice (w : P2PWorkflow) (invoice_id reason : String) :
    Bool × P2PWorkflow :=
  match w.invoices.lookup invoice_id with
  | none => (false, w)
  | some _ =>
    (true, { w with invoices := updFirst invoice_id (fun i => i.block reason) w.invoices })

/-- workflow.py `P2PWorkflow.unblock_invoice`: fail if the invoice is missing,
otherwise `Invoice.unblock` in place and return True. -/
def P2PWorkflow.unblock_invoice (w : P2PWorkflow) (invoice_id : String) :
    Bool × P2PWorkflow :=
  match w.invoices.lookup invoice_id with
  | none => (false, w)
  | some _ =>
    (true, { w with invoices := updFirst invoice_id Invoice.unblock w.invoices })

/-- Node of the knowledge graph (kg_reasoning.py `P2PKnowledgeGraph.graph`):
only the attributes that `detect_three_way_match_issues` reads are kept
(`type`, `amount`, `status`). -/
structure KGNode where
  id : String
  ntype : String
  amount : ℚ := 0
  status : String := ""
deriving DecidableEq, Repr

/-- Directed edge of the knowledge graph with its `relation` attribute. -/
structure KGEdge where
  src : String
  dst : String
  relation : String
deriving DecidableEq, Repr

/-- Knowledge graph as explicit node and edge lists (a networkx MultiDiGraph
snapshot). -/
structure KGraph where
  nodes : List KGNode
  edges : List KGEdge
deriving DecidableEq, Repr

/-- Python `self.graph.nodes[x]['amount']`: a missing node (or attribute) is
a KeyError, modelled as `Except.error`. -/
def KGraph.nodeAmount (g : KGraph) (x : String) : Except String ℚ :=
  match g.nodes.find? (fun n => n.id == x) with
  | some n => .ok n.amount
  | none => .error "KeyError"

/-- Python `self.graph.nodes[x]['status']`. -/
def KGraph.nodeStatus (g : KGraph) (x : String) : Except String String :=
  match g.nodes.find? (fun n => n.id == x) with
  | some n => .ok n.status
  | none => .error "KeyError"

/-- One reported issue of `detect_three_way_match_issues`, keeping the fields
the claims are about: the invoice, the kind of issue, its severity, and the
variance percentage carried by the amount-mismatch issue. -/
structure MatchIssue where
  invoice_id : String
  issue_kind : String
  severity : String
  variance_pct : Option ℚ := none
deriving DecidableEq, Repr

/-- Body of the per-invoice loop of kg_reasoning.py
`detect_three_way_match_issues` (lines 416-456): collect the REFERENCES_PO
and REFERENCES_GR targets; if either list is empty report one HIGH issue and
continue; otherwise read the three amounts, compute
`abs(invoice_amount - po_amount) / po_amount` — a `ZeroDivisionError` when
`po_amount` is zero, as in Python — flag MEDIUM with the variance percentage
when it exceeds 0.05, and flag HIGH when the GR status is not "Accepted". -/
def threeWayCheckInvoice (g : KGraph) (invoice_id : String) :
    Except String (List MatchIssue) := do
  let po_edges := (g.edges.filter
    (fun e => e.src == invoice_id && e.relation == "REFERENCES_PO")).map KGEdge.dst
  let gr_edges := (g.edges.filter
    (fun e => e.src == invoice_id && e.relation == "REFERENCES_GR")).map KGEdge.dst
  match po_edges, gr_edges with
  | po_id :: _, gr_id :: _ => do
    let invoice_amount ← g.nodeAmount invoice_id
    let po_amount ← g.nodeAmount po_id
    let _gr_amount ← g.nodeAmount gr_id
    let variance ←
      if po_amount = 0 then Except.error "ZeroDivisionError"
      else Except.ok (|invoice_amount - po_amount| / po_amount)
    let amount_issues :=
      if variance > 5 / 100 then
        [{ invoice_id := invoice_id, issue_kind := "Invoice amount differs from PO",
           severity := "MEDIUM", variance_pct := some (variance * 100) : MatchIssue }]
      else
        []
    let gr_status ← g.nodeStatus gr_id
    let gr_issues :=
      if gr_status ≠ "Accepted" then
        [{ invoice_id := invoice_id, issue_kind := "GR not accepted",
           severity := "HIGH" : MatchIssue }]
      else
        []
    pure (amount_issues ++ gr_issues)
  | _, _ =>
    pure [{ invoice_id := invoice_id, issue_kind := "Missing PO or GR reference",
            severity := "HIGH" : MatchIssue }]

/-- Fold of `threeWayCheckInvoice` over a list of invoice ids, accumulating
the issues in order; the first Python exception aborts the whole call. -/
def threeWayCheckAll (g : KGraph) : List String → Except String (List MatchIssue)
  | [] => pure []
  | inv :: rest => do
    let here ← threeWayCheckInvoice g inv
    let there ← threeWayCheckAll g rest
    pure (here ++ there)

/-- kg_reasoning.py `P2PKnowledgeGraph.detect_three_way_match_issues`: run the
per-invoice check over every node of type Invoice, in node order. -/
def detect_three_way_match_issues (g : KGraph) : Except String (List MatchIssue) :=
  threeWayCheckAll g ((g.nodes.filter (fun n => n.ntype == "Invoice")).map KGNode.id)

/-- Per-vendor score accumulation of kg_reasoning.py
`calculate_vendor_risk_scores` (lines 294-323), as a function of the counts
the graph queries return: `b` blocked documents, `r` rejected goods receipts,
`o` overdue invoices, `t` purchase-order transaction count.  Each factor is
added only when its list is non-empty (`if blocked_docs:`), and the -10
high-volume bonus applies only when `transaction_count > 5 and score == 0`. -/
def vendor_risk_score_raw (b r o t : Nat) : Int :=
  let score : Int := 0
  let score := if 0 < b then score + 20 * b else score
  let score := if 0 < r then score + 30 * r else score
  let score := if 0 < o then score + 15 * o else score
  let score := if 5 < t ∧ score = 0 then score - 10 else score
  score

/-- Reported risk score: kg_reasoning.py line 329, `max(0, score)`. -/
def vendor_risk_score (b r o t : Nat) : Int :=
  max 0 (vendor_risk_score_raw b r o t)

/-- Concrete graph for the three-way-match examples: PO amount 1000, invoice
amount 1060 (6% variance), accepted GR. -/
def g1060 : KGraph :=
  { nodes := [
      { id := "INV1", ntype := "Invoice", amount := 1060, status := "Approved" },
      { id := "PO1", ntype := "PurchaseOrder", amount := 1000, status := "In Progress" },
      { id := "GR1", ntype := "GoodsReceipt", amount := 1000, status := "Accepted" }],
    edges := [
      { src := "INV1", dst := "PO1", relation := "REFERENCES_PO" },
      { src := "INV1", dst := "GR1", relation := "REFERENCES_GR" }] }

/-- Concrete graph: PO amount 1000, invoice amount 1040 (4% variance),
accepted GR. -/
def g1040 : KGraph :=
  { nodes := [
      { id := "INV1", ntype := "Invoice", amount := 1040, status := "Approved" },
      { id := "PO1", ntype := "PurchaseOrder", amount := 1000, status := "In Progress" },
      { id := "GR1", ntype := "GoodsReceipt", amount := 1000, status := "Accepted" }],
    edges := [
      { src := "INV1", dst := "PO1", relation := "REFERENCES_PO" },
      { src := "INV1", dst := "GR1", relation := "REFERENCES_GR" }] }

/-- Concrete graph whose one invoice references a purchase order with total
amount 0 (a PO with no line items), together with an accepted GR — the state
reachable by approving an empty PO, receiving it, accepting the GR and
invoicing it. -/
def gZeroPO : KGraph :=
  { nodes := [
      { id := "INV1", ntype := "Invoice", amount := 500, status := "Draft" },
      { id := "PO1", ntype := "PurchaseOrder", amount := 0, status := "In Progress" },
      { id := "GR1", ntype := "GoodsReceipt", amount := 0, status := "Accepted" }],
    edges := [
      { src := "INV1", dst := "PO1", relation := "REFERENCES_PO" },
      { src := "INV1", dst := "GR1", relation := "REFERENCES_GR" }] }

/-- Fixture: a PO pending approval with two Pending required approvers. -/
def po1pend : PurchaseOrder :=
  { id := "PO1", status := .pendingApproval,
    approvals := [{ approver := "alice" }, { approver := "bob" }] }

/-- Fixture: the same PO after bob has already approved; alice is the last
Pending approver. -/
def po1last : PurchaseOrder :=
  { id := "PO1", status := .pendingApproval,
    approvals := [{ approver := "alice" }, { approver := "bob", status := "Approved" }] }

/-- Fixture: a workflow holding `po1pend`. -/
def w1claim1 : P2PWorkflow := { purchase_orders := [("PO1", po1pend)] }

/-- Fixture: a workflow holding `po1last`. -/
def w2claim1 : P2PWorkflow := { purchase_orders := [("PO1", po1last)] }

/-- Fixture: a Received GR belonging to PO1. -/
def grRecv9 : GoodsReceipt := { id := "GR1", po_id := "PO1", status := .received }

/-- Fixture: a Blocked PO with id PO1. -/
def poBlocked9 : PurchaseOrder :=
  { id := "PO1", status := .blocked, blocked_reason := "under audit" }

/-- Fixture: a workflow holding the Blocked `poBlocked9` and its Received
`grRecv9`. -/
def wClaim9 : P2PWorkflow :=
  { purchase_orders := [("PO1", poBlocked9)], goods_receipts := [("GR1", grRecv9)] }

/-- Fixture: a low approval policy with range [0, 1000]. -/
def polLow : ApprovalPolicy := { name := "low", min_amount := 0, max_amount := some 1000 }

/-- Fixture: a mid approval policy with range [1001, 10000]. -/
def polMid : ApprovalPolicy :=
  { name := "mid", min_amount := 1001, max_amount := some 10000 }

/-- Fixture: a high approval policy with range [10001, unbounded). -/
def polHigh : ApprovalPolicy := { name := "high", min_amount := 10001 }

/-- Fixture: a workflow configured with the three example policies through
`add_approval_policy`. -/
def wPolicies : P2PWorkflow :=
  ((({} : P2PWorkflow).add_approval_policy polMid).add_approval_policy
    polHigh).add_approval_policy polLow

/-- Helper: closed form of the raw vendor risk score. -/
theorem vendor_risk_score_raw_eq (b r o t : Nat) :
    vendor_risk_score_raw b r o t
      = (20 * b + 30 * r + 15 * o : Int)
          - (if 5 < t ∧ b = 0 ∧ r = 0 ∧ o = 0 then 10 else 0) := by
  simp only [vendor_risk_score_raw]
  split_ifs <;> omega

/-- C5: the reported vendor risk score equals
`max 0 (20*blocked + 30*rejected + 15*overdue - bonus)` where the -10 bonus
applies exactly when the transaction count exceeds 5 and all three issue
counts are zero; the reported score is monotone non-decreasing in each issue
count with the others fixed; and a vendor with zero issues and more than five
transactions has raw score -10, reported as 0. -/
theorem vendor_risk_score_spec (b r o t : Nat) :
    vendor_risk_score b r o t
        = max 0 ((20 * b + 30 * r + 15 * o : Int)
            - (if 5 < t ∧ b = 0 ∧ r = 0 ∧ o = 0 then 10 else 0))
      ∧ (∀ b2, b ≤ b2 → vendor_risk_score b r o t ≤ vendor_risk_score b2 r o t)
      ∧ (∀ r2, r ≤ r2 → vendor_risk_score b r o t ≤ vendor_risk_score b r2 o t)
      ∧ (∀ o2, o ≤ o2 → vendor_risk_score b r o t ≤ vendor_risk_score b r o2 t)
      ∧ (b = 0 → r = 0 → o = 0 → 5 < t →
          vendor_risk_score_raw b r o t = -10 ∧ vendor_risk_score b r o t = 0) := by
  refine ⟨?_, ?_, ?_, ?_, ?_⟩
  · rw [vendor_risk_score, vendor_risk_score_raw_eq]
  · intro b2 hb
    rw [vendor_risk_score, vendor_risk_score, vendor_risk_score_raw_eq,
      vendor_risk_score_raw_eq]
    split_ifs <;> omega
  · intro r2 hr
    rw [vendor_risk_score, vendor_risk_score, vendor_risk_score_raw_eq,
      vendor_risk_score_raw_eq]
    split_ifs <;> omega
  · intro o2 ho
    rw [vendor_risk_score, vendor_risk_score, vendor_risk_score_raw_eq,
      vendor_risk_score_raw_eq]
    split_ifs <;> omega
  · intro hb hr ho ht
    subst hb; subst hr; subst ho
    rw [vendor_risk_score, vendor_risk_score_raw_eq]
    split_ifs <;> omega

/-- C5 witness: the theorem applied at blocked = 1, rejected = 0, overdue = 0,
transactions = 6, discharging the monotonicity and zero-issue hypotheses at
concrete counts. -/
theorem vendor_risk_score_spec_witness :
    vendor_risk_score 0 0 0 6 ≤ vendor_risk_score 1 0 0 6
      ∧ vendor_risk_score_raw 0 0 0 6 = -10 ∧ vendor_risk_score 0 0 0 6 = 0 :=
  ⟨(vendor_risk_score_spec 0 0 0 6).2.1 1 (by decide),
   (vendor_risk_score_spec 0 0 0 6).2.2.2.2 rfl rfl rfl (by decide)⟩

/-- C3: contrary to the specification, `detect_three_way_match_issues` does
NOT short-circuit the percentage variance to 0 for a zero-total PO: the
division `abs(invoice_amount - po_amount) / po_amount` at kg_reasoning.py
line 440 is unguarded, so on a graph whose invoice references a PO node with
amount 0 the call raises ZeroDivisionError. -/
theorem three_way_match_zero_po_raises :
    detect_three_way_match_issues gZeroPO = Except.error "ZeroDivisionError" := by
  rfl

/-- Helper: looking up the key just updated by `updFirst` returns the mapped
value. -/
theorem lookup_updFirst {α : Type} (k : String) (f : α → α) (m : List (String × α)) :
    (updFirst k f m).lookup k = (m.lookup k).map f := by
  induction m with
  | nil => rfl
  | cons kv rest ih =>
    by_cases h : kv.1 = k
    · simp [updFirst, h, List.lookup]
    · have h2 : (k == kv.1) = false := by
        simp [beq_iff_eq]
        exact fun hk => h hk.symm
      simp [updFirst, h, List.lookup, h2, ih]

/-- Helper: `updFirst` is the identity when the looked-up value is a fixed
point of the update. -/
theorem updFirst_eq_self {α : Type} (k : String) (f : α → α) (m : List (String × α))
    (v : α) (hl : m.lookup k = some v) (hf : f v = v) : updFirst k f m = m := by
  induction m with
  | nil => simp at hl
  | cons kv rest ih =>
    obtain ⟨a, b⟩ := kv
    by_cases h : a = k
    · have hb : (k == a) = true := by simp [beq_iff_eq, h.symm]
      simp only [List.lookup, hb, Option.some.injEq] at hl
      simp [updFirst, h, hl, hf]
    · have h2 : (k == a) = false := by
        simp [beq_iff_eq]
        exact fun hk => h hk.symm
      simp only [List.lookup, h2] at hl
      simp [updFirst, h, ih hl]

/-- Helper: looking up a key that sits after a prefix free of that key. -/
theorem lookup_append_fresh {α : Type} (k : String) (v : α)
    (l1 l2 : List (String × α)) (h : ∀ kv ∈ l1, kv.1 ≠ k) :
    (l1 ++ (k, v) :: l2).lookup k = some v := by
  induction l1 with
  | nil => simp [List.lookup]
  | cons kv rest ih =>
    have hk : kv.1 ≠ k := h kv (by simp)
    have h2 : (k == kv.1) = false := by
      simp [beq_iff_eq]
      exact fun hkk => hk hkk.symm
    simp only [List.cons_append, List.lookup, h2]
    exact ih (fun kv2 hkv2 => h kv2 (by simp [hkv2]))

/-- Helper: `updFirst` on a list whose first occurrence of the key sits after
a key-free prefix rewrites exactly that entry. -/
theorem updFirst_append_fresh {α : Type} (k : String) (v : α) (f : α → α)
    (l1 l2 : List (String × α)) (h : ∀ kv ∈ l1, kv.1 ≠ k) :
    updFirst k f (l1 ++ (k, v) :: l2) = l1 ++ (k, f v) :: l2 := by
  induction l1 with
  | nil => simp [updFirst]
  | cons kv rest ih =>
    have hk : kv.1 ≠ k := h kv (by simp)
    simp only [List.cons_append, updFirst, hk, ite_false, List.append_eq]
    rw [ih (fun kv2 hkv2 => h kv2 (by simp [hkv2]))]

/-- C6: `create_goods_receipt` against a missing PO or a PO whose status is
not Approved returns `none` with the entire workflow state unchanged; against
an Approved PO it returns a goods receipt stored in Received status and sets
the PO status to InProgress. -/
theorem create_goods_receipt_spec (w : P2PWorkflow)
    (po_id received_by : String) (line_items : List LineItem) (notes gr_id : String)
    (now : Nat) :
    (w.purchase_orders.lookup po_id = none →
      w.create_goods_receipt po_id received_by line_items notes gr_id now = (none, w))
    ∧ (∀ po, w.purchase_orders.lookup po_id = some po → po.status ≠ .approved →
        w.create_goods_receipt po_id received_by line_items notes gr_id now = (none, w))
    ∧ (∀ po, w.purchase_orders.lookup po_id = some po → po.status = .approved →
        ∃ gr w2,
          w.create_goods_receipt po_id received_by line_items notes gr_id now
              = (some gr, w2)
          ∧ gr.status = .received
          ∧ w2.goods_receipts = w.goods_receipts ++ [(gr_id, gr)]
          ∧ w2.purchase_orders.lookup po_id = some { po with status := .inProgress }
          ∧ w2.invoices = w.invoices
          ∧ w2.approval_policies = w.approval_policies) := by
  refine ⟨?_, ?_, ?_⟩
  · intro h
    simp [P2PWorkflow.create_goods_receipt, h]
  · intro po hpo hst
    simp [P2PWorkflow.create_goods_receipt, hpo, hst]
  · intro po hpo hst
    simp only [P2PWorkflow.create_goods_receipt, hpo, hst, ite_true]
    refine ⟨_, _, rfl, rfl, rfl, ?_, rfl, rfl⟩
    rw [lookup_updFirst, hpo]
    rfl

/-- C6 witness: a one-PO workflow in Draft status rejects GR creation and is
left untouched, and the same workflow with the PO Approved accepts it. -/
theorem create_goods_receipt_spec_witness :
    ({ purchase_orders := [("PO1", { id := "PO1", status := .draft })] } :
        P2PWorkflow).create_goods_receipt "PO1" "bob" [] "" "GR1" 7
      = (none, { purchase_orders := [("PO1", { id := "PO1", status := .draft })] }) := by
  have h := (create_goods_receipt_spec
    ({ purchase_orders := [("PO1", { id := "PO1", status := .draft })] } : P2PWorkflow)
    "PO1" "bob" [] "" "GR1" 7).2.1 { id := "PO1", status := .draft } (by rfl) (by decide)
  exact h

/-- C7: for every existing invoice in any status, `block_invoice` returns
True, sets the status to Blocked and records the reason; a subsequent
`unblock_invoice` returns True, reverts the status to Draft and clears the
reason to the empty string.  (The workflow engine modelled here exposes no
unblock operation for purchase orders or goods receipts — `unblock_invoice`
is the only unblock in workflow.py.) -/
theorem block_unblock_invoice_spec (w : P2PWorkflow) (invoice_id reason : String)
    (inv : Invoice) (hlook : w.invoices.lookup invoice_id = some inv) :
    (w.block_invoice invoice_id reason).1 = true
    ∧ (w.block_invoice invoice_id reason).2.invoices.lookup invoice_id
        = some (inv.block reason)
    ∧ (inv.block reason).status = .blocked
    ∧ (inv.block reason).blocked_reason = reason
    ∧ ((w.block_invoice invoice_id reason).2.unblock_invoice invoice_id).1 = true
    ∧ ((w.block_invoice invoice_id reason).2.unblock_invoice invoice_id).2.invoices.lookup
        invoice_id = some ((inv.block reason).unblock)
    ∧ ((inv.block reason).unblock).status = .draft
    ∧ ((inv.block reason).unblock).blocked_reason = "" := by
  have hb : (w.block_invoice invoice_id reason)
      = (true, { w with invoices := updFirst invoice_id (fun i => i.block reason) w.invoices }) := by
    simp [P2PWorkflow.block_invoice, hlook]
  have hlook2 : (w.block_invoice invoice_id reason).2.invoices.lookup invoice_id
      = some (inv.block reason) := by
    rw [hb]
    show (updFirst invoice_id (fun i => i.block reason) w.invoices).lookup invoice_id
      = some (inv.block reason)
    rw [lookup_updFirst, hlook]
    rfl
  have hub : (inv.block reason).unblock
      = { inv.block reason with status := .draft, blocked_reason := "" } := by
    simp [Invoice.unblock, Invoice.block]
  refine ⟨by rw [hb], hlook2, rfl, rfl, ?_, ?_, by rw [hub], by rw [hub]⟩
  · simp [P2PWorkflow.unblock_invoice, hlook2]
  · simp only [P2PWorkflow.unblock_invoice, hlook2]
    rw [lookup_updFirst, hlook2]
    rfl

/-- C7 witness: the theorem applied to a one-invoice workflow holding a Paid
invoice. -/
theorem block_unblock_invoice_spec_witness :
    (({ invoices := [("INV1", { id := "INV1", status := .paid })] } :
        P2PWorkflow).block_invoice "INV1" "audit hold").1 = true
    ∧ (({ id := "INV1", status := .paid : Invoice }.block "audit hold").status = .blocked
    ∧ (({ id := "INV1", status := .paid : Invoice }.block "audit hold").unblock).status
        = .draft) :=
  have h := block_unblock_invoice_spec
    ({ invoices := [("INV1", { id := "INV1", status := .paid })] } : P2PWorkflow)
    "INV1" "audit hold" { id := "INV1", status := .paid } (by rfl)
  ⟨h.1, h.2.2.1, h.2.2.2.2.2.2.1⟩

/-- C10: `unblock_invoice` on an existing invoice whose status is not Blocked
returns True and leaves the whole workflow state (in particular that invoice)
unchanged, and `unblock_invoice` returns False exactly when the invoice id is
absent from the invoice map. -/
theorem unblock_invoice_nonblocked_spec (w : P2PWorkflow) (invoice_id : String)
    (inv : Invoice) (hlook : w.invoices.lookup invoice_id = some inv)
    (hnb : inv.status ≠ .blocked) :
    w.unblock_invoice invoice_id = (true, w)
    ∧ (∀ j, (w.unblock_invoice j).1 = false ↔ w.invoices.lookup j = none) := by
  constructor
  · have hid : inv.unblock = inv := by
      simp [Invoice.unblock, hnb]
    simp only [P2PWorkflow.unblock_invoice, hlook]
    rw [updFirst_eq_self invoice_id Invoice.unblock w.invoices inv hlook hid]
  · intro j
    cases hj : w.invoices.lookup j with
    | none => simp [P2PWorkflow.unblock_invoice, hj]
    | some i => simp [P2PWorkflow.unblock_invoice, hj]

/-- C10 witness: the theorem applied to a workflow with one Draft invoice. -/
theorem unblock_invoice_nonblocked_spec_witness :
    ({ invoices := [("INV1", { id := "INV1", status := .draft })] } :
        P2PWorkflow).unblock_invoice "INV1"
      = (true, { invoices := [("INV1", { id := "INV1", status := .draft })] }) :=
  (unblock_invoice_nonblocked_spec
    ({ invoices := [("INV1", { id := "INV1", status := .draft })] } : P2PWorkflow)
    "INV1" { id := "INV1", status := .draft } (by rfl) (by decide)).1

/-- Helper: when approvers are pairwise distinct and the acting approver has a
Pending record, marking the first Pending record of that approver is the same
as mapping the update over the unique record with that approver. -/
theorem markFirstPending_eq_map (s a c : String) (now : Nat) :
    ∀ (l : List ApprovalRecord),
      l.Pairwise (fun x y => x.approver ≠ y.approver) →
      (∃ rec ∈ l, rec.approver = a ∧ rec.status = "Pending") →
      markFirstPending s a c now l
        = l.map (fun rec =>
            if rec.approver = a then
              { rec with status := s, comments := c, timestamp := now }
            else rec) := by
  intro l hdist hrec
  induction l with
  | nil => simp at hrec
  | cons x tl ih =>
    obtain ⟨rec, hmem, hra, hrs⟩ := hrec
    have hx : ∀ y ∈ tl, x.approver ≠ y.approver := (List.pairwise_cons.mp hdist).1
    by_cases hxa : x.approver = a
    · have hrx : rec = x := by
        rcases List.mem_cons.mp hmem with h | h
        · exact h
        · exact absurd (hxa.trans hra.symm) (hx rec h)
      have hxs : x.status = "Pending" := hrx ▸ hrs
      have htl : tl.map (fun rec =>
          if rec.approver = a then
            { rec with status := s, comments := c, timestamp := now }
          else rec) = tl := by
        have hcong : ∀ y ∈ tl, (fun rec : ApprovalRecord =>
            if rec.approver = a then
              { rec with status := s, comments := c, timestamp := now }
            else rec) y = id y := by
          intro y hy
          have hya : y.approver ≠ a := fun hya => hx y hy (hxa.trans hya.symm)
          simp [hya]
        rw [List.map_congr_left hcong, List.map_id]
      simp only [markFirstPending, hxa, hxs, and_self, ite_true, List.map_cons, htl]
    · have hmem2 : rec ∈ tl := by
        rcases List.mem_cons.mp hmem with h | h
        · exact absurd (h ▸ hra) hxa
        · exact h
      have hcond : ¬(x.approver = a ∧ x.status = "Pending") := fun h => hxa h.1
      simp only [markFirstPending, hcond, ite_false, List.map_cons, hxa, ite_false]
      exact congrArg (List.cons x) (ih (List.pairwise_cons.mp hdist).2 ⟨rec, hmem2, hra, hrs⟩)

/-- Helper: after marking the acting approver's record Approved, all records
are Approved exactly when every record of a different approver already was. -/
theorem all_approved_after_mark (a c : String) (now : Nat) (l : List ApprovalRecord)
    (hdist : l.Pairwise (fun x y => x.approver ≠ y.approver))
    (hrec : ∃ rec ∈ l, rec.approver = a ∧ rec.status = "Pending") :
    ((markFirstPending "Approved" a c now l).all (fun r => r.status = "Approved")
        = true)
      ↔ (∀ rec ∈ l, rec.approver ≠ a → rec.status = "Approved") := by
  rw [markFirstPending_eq_map "Approved" a c now l hdist hrec]
  simp only [List.all_map, List.all_eq_true, Function.comp]
  constructor
  · intro h rec hmem hne
    have := h rec hmem
    simp only [hne, ite_false] at this
    exact of_decide_eq_true this
  · intro h rec hmem
    by_cases hra : rec.approver = a
    · simp [hra]
    · simp only [hra, ite_false]
      exact decide_eq_true (h rec hmem hra)

/-- C1: for a PO in PendingApproval whose approval records carry pairwise
distinct approvers, an `approve_po` call by a required approver holding a
Pending record succeeds, and the PO transitions to Approved with
`approval_date` stamped exactly when every record of the other approvers is
already Approved (i.e. on the final distinct approver) — otherwise the status
stays PendingApproval with `approval_date` untouched; and a single
`reject_po` call by a required approver holding a Pending record succeeds and
sets the status to Rejected immediately, regardless of the other records. -/
theorem approve_reject_po_spec (w : P2PWorkflow) (po_id a c : String) (now : Nat)
    (po : PurchaseOrder) (hlook : w.purchase_orders.lookup po_id = some po)
    (hpend : po.status = .pendingApproval)
    (hdist : po.approvals.Pairwise (fun x y => x.approver ≠ y.approver))
    (hrec : ∃ rec ∈ po.approvals, rec.approver = a ∧ rec.status = "Pending") :
    (w.approve_po po_id a c now).1 = true
    ∧ (w.approve_po po_id a c now).2.purchase_orders.lookup po_id
        = some (po.approve a c now)
    ∧ ((∀ rec ∈ po.approvals, rec.approver ≠ a → rec.status = "Approved") →
        (po.approve a c now).status = .approved
          ∧ (po.approve a c now).approval_date = some now)
    ∧ (¬(∀ rec ∈ po.approvals, rec.approver ≠ a → rec.status = "Approved") →
        (po.approve a c now).status = .pendingApproval
          ∧ (po.approve a c now).approval_date = po.approval_date)
    ∧ (w.reject_po po_id a c now).1 = true
    ∧ (w.reject_po po_id a c now).2.purchase_orders.lookup po_id
        = some (po.reject a c now)
    ∧ (po.reject a c now).status = .rejected := by
  have happ : (w.approve_po po_id a c now)
      = (true, { w with purchase_orders := updFirst po_id (fun p => p.approve a c now) w.purchase_orders }) := by
    simp [P2PWorkflow.approve_po, hlook, hpend]
  have hrej : (w.reject_po po_id a c now)
      = (true, { w with purchase_orders := updFirst po_id (fun p => p.reject a c now) w.purchase_orders }) := by
    simp [P2PWorkflow.reject_po, hlook, hpend]
  refine ⟨by rw [happ], ?_, ?_, ?_, by rw [hrej], ?_, rfl⟩
  · rw [happ]
    show (updFirst po_id (fun p => p.approve a c now) w.purchase_orders).lookup po_id
      = some (po.approve a c now)
    rw [lookup_updFirst, hlook]
    rfl
  · intro hall
    have : (markFirstPending "Approved" a c now po.approvals).all
        (fun r => r.status = "Approved") = true :=
      (all_approved_after_mark a c now po.approvals hdist hrec).mpr hall
    simp [PurchaseOrder.approve, this]
  · intro hnall
    have : ¬((markFirstPending "Approved" a c now po.approvals).all
        (fun r => r.status = "Approved") = true) :=
      fun h => hnall ((all_approved_after_mark a c now po.approvals hdist hrec).mp h)
    simp [PurchaseOrder.approve, this, hpend]
  · rw [hrej]
    show (updFirst po_id (fun p => p.reject a c now) w.purchase_orders).lookup po_id
      = some (po.reject a c now)
    rw [lookup_updFirst, hlook]
    rfl

/-- C1 witness: a PO with two required approvers alice and bob; alice's
approval alone does not approve the PO (bob is still Pending), while in the
state where bob has already approved, alice's approval is the final one and
approves the PO; alice's rejection rejects immediately. -/
theorem approve_reject_po_spec_witness :
    (w1claim1.approve_po "PO1" "alice" "" 3).1 = true
    ∧ (po1pend.approve "alice" "" 3).status = .pendingApproval
    ∧ (po1last.approve "alice" "" 3).status = .approved
    ∧ (po1last.approve "alice" "" 3).approval_date = some 3
    ∧ (po1pend.reject "alice" "" 3).status = .rejected :=
  have h1 := approve_reject_po_spec w1claim1 "PO1" "alice" "" 3 po1pend
    (by rfl) rfl (by decide) ⟨{ approver := "alice" }, by decide, rfl, rfl⟩
  have h2 := approve_reject_po_spec w2claim1 "PO1" "alice" "" 3 po1last
    (by rfl) rfl (by decide) ⟨{ approver := "alice" }, by decide, rfl, rfl⟩
  ⟨h1.1,
   (h1.2.2.2.1 (by decide)).1,
   (h2.2.2.1 (by decide)).1,
   (h2.2.2.1 (by decide)).2,
   h1.2.2.2.2.2.2⟩

/-- C9: a Blocked purchase order does not stay Blocked under
`perform_quality_check`: whenever a GR of that PO is in Received status and a
passing quality check makes every GR of the PO Accepted, the PO status is
overwritten to Completed, discarding the Blocked status. -/
theorem quality_check_overwrites_blocked (w : P2PWorkflow) (gr_id checker : String)
    (now : Nat) (gr : GoodsReceipt) (po : PurchaseOrder)
    (l1 l2 : List (String × GoodsReceipt))
    (hgrs : w.goods_receipts = l1 ++ (gr_id, gr) :: l2)
    (hfresh : ∀ kv ∈ l1, kv.1 ≠ gr_id)
    (hrecv : gr.status = .received)
    (hpo : w.purchase_orders.lookup gr.po_id = some po)
    (hblocked : po.status = .blocked)
    (hpoid : po.id = gr.po_id)
    (hoth : ∀ kv, (kv ∈ l1 ∨ kv ∈ l2) → kv.2.po_id = po.id → kv.2.status = .accepted) :
    (w.perform_quality_check gr_id checker true now).1 = true
    ∧ (w.perform_quality_check gr_id checker true now).2.purchase_orders.lookup gr.po_id
        = some { po with status := .completed } := by
  have hlookgr : w.goods_receipts.lookup gr_id = some gr := by
    rw [hgrs]; exact lookup_append_fresh gr_id gr l1 l2 hfresh
  have hupd : updFirst gr_id (fun _ => gr.perform_quality_check checker true now)
      w.goods_receipts
      = l1 ++ (gr_id, gr.perform_quality_check checker true now) :: l2 := by
    rw [hgrs]; exact updFirst_append_fresh gr_id gr _ l1 l2 hfresh
  have hall : ((l1 ++ (gr_id, gr.perform_quality_check checker true now) :: l2).filter
        (fun kv => kv.2.po_id = po.id)).all (fun kv => kv.2.status = .accepted) = true := by
    simp only [List.all_eq_true, List.mem_filter, decide_eq_true_eq]
    rintro kv ⟨hmem, hpoid2⟩
    rcases List.mem_append.mp hmem with hm | hm
    · exact hoth kv (Or.inl hm) hpoid2
    · rcases List.mem_cons.mp hm with hm2 | hm2
      · rw [hm2]
        rfl
      · exact hoth kv (Or.inr hm2) hpoid2
  have hpid : (gr.perform_quality_check checker true now).po_id = gr.po_id := rfl
  have hres : w.perform_quality_check gr_id checker true now
      = (true, { w with goods_receipts := l1 ++ (gr_id, gr.perform_quality_check checker true now) :: l2, purchase_orders := updFirst gr.po_id (fun p => { p with status := .completed }) w.purchase_orders }) := by
    simp only [P2PWorkflow.perform_quality_check, hlookgr, hrecv, eq_self_iff_true,
      if_true, hupd, hpid, hpo]
    rw [if_pos hall]
  refine ⟨by rw [hres], ?_⟩
  rw [hres]
  show (updFirst gr.po_id (fun p => { p with status := .completed })
      w.purchase_orders).lookup gr.po_id = some { po with status := .completed }
  rw [lookup_updFirst, hpo]
  rfl

/-- C9 witness: a workflow whose single GR (Received) belongs to a Blocked
PO; a passing quality check turns the PO status into Completed. -/
theorem quality_check_overwrites_blocked_witness :
    (wClaim9.perform_quality_check "GR1" "carol" true 5).1 = true
    ∧ (wClaim9.perform_quality_check "GR1" "carol" true 5).2.purchase_orders.lookup "PO1"
        = some { poBlocked9 with status := .completed } :=
  quality_check_overwrites_blocked wClaim9 "GR1" "carol" 5 grRecv9 poBlocked9 [] []
    rfl (by simp) rfl (by rfl) rfl rfl (by simp)

/-- Helper: `find?` on a list sorted by non-increasing key returns, among all
elements satisfying the predicate, one of maximal key. -/
theorem find?_key_max_of_sorted_desc (key : ApprovalPolicy → ℚ)
    (pred : ApprovalPolicy → Bool) :
    ∀ (l : List ApprovalPolicy), l.Pairwise (fun x y => key y ≤ key x) →
      ∀ x, l.find? pred = some x → ∀ y ∈ l, pred y = true → key y ≤ key x := by
  intro l
  induction l with
  | nil => intro _ x hx; simp at hx
  | cons a tl ih =>
    intro hsort x hfind y hy hpy
    have hhead : ∀ z ∈ tl, key z ≤ key a := (List.pairwise_cons.mp hsort).1
    cases hpa : pred a with
    | true =>
      have hxa : x = a := by
        rw [List.find?_cons_of_pos _ hpa] at hfind
        exact (Option.some_inj.mp hfind).symm
      rcases List.mem_cons.mp hy with h | h
      · rw [hxa, h]
      · rw [hxa]; exact hhead y h
    | false =>
      rw [List.find?_cons_of_neg _ (by simp [hpa])] at hfind
      rcases List.mem_cons.mp hy with h | h
      · rw [h] at hpy; rw [hpy] at hpa; cases hpa
      · exact ih (List.pairwise_cons.mp hsort).2 x hfind y h hpy

/-- C2: on a policy list sorted ascending by `min_amount` (the invariant
`add_approval_policy` maintains), `get_applicable_policy` returns `none`
exactly when no configured policy's range contains the amount, and any
returned policy is a configured one whose range contains the amount and whose
`min_amount` is maximal among all policies containing the amount; containment
itself means `min_amount ≤ a` and, when the upper bound is finite, `a ≤
max_amount`. -/
theorem get_applicable_policy_spec (w : P2PWorkflow) (a : ℚ)
    (hs : w.approval_policies.Pairwise
      (fun p q : ApprovalPolicy => p.min_amount ≤ q.min_amount)) :
    (w.get_applicable_policy a = none
        ↔ ∀ p ∈ w.approval_policies, p.is_applicable a = false)
    ∧ (∀ p, w.get_applicable_policy a = some p →
        p ∈ w.approval_policies ∧ p.is_applicable a = true
          ∧ ∀ q ∈ w.approval_policies, q.is_applicable a = true →
              q.min_amount ≤ p.min_amount)
    ∧ (∀ p : ApprovalPolicy, p.is_applicable a = true
        ↔ (p.min_amount ≤ a ∧ ∀ m, p.max_amount = some m → a ≤ m)) := by
  refine ⟨?_, ?_, ?_⟩
  · rw [P2PWorkflow.get_applicable_policy, List.find?_eq_none]
    constructor
    · intro h p hp
      have := h p (List.mem_reverse.mpr hp)
      simp only [Bool.not_eq_true] at this
      exact this
    · intro h p hp
      simp only [Bool.not_eq_true]
      exact h p (List.mem_reverse.mp hp)
  · intro p hfind
    rw [P2PWorkflow.get_applicable_policy] at hfind
    have hmem : p ∈ w.approval_policies :=
      List.mem_reverse.mp (List.mem_of_find?_eq_some hfind)
    have happ : p.is_applicable a = true := by
      simpa using List.find?_some hfind
    refine ⟨hmem, happ, ?_⟩
    intro q hq hqa
    have hrev : (w.approval_policies.reverse).Pairwise
        (fun x y : ApprovalPolicy => y.min_amount ≤ x.min_amount) :=
      List.pairwise_reverse.mpr hs
    exact find?_key_max_of_sorted_desc (fun p => p.min_amount)
      (fun p => p.is_applicable a) w.approval_policies.reverse hrev p hfind q
      (List.mem_reverse.mpr hq) hqa
  · intro p
    rw [ApprovalPolicy.is_applicable]
    cases hm : p.max_amount with
    | none =>
      simp [hm]
    | some m =>
      simp [hm]

/-- C2 witness: a three-policy configuration [0,1000], [1001,10000],
[10001,unbounded): amount 500 falls only in the low policy and amount 10001
only in the high one, as the theorem's maximality clause forces. -/
theorem get_applicable_policy_spec_witness :
    wPolicies.get_applicable_policy 500 = some polLow
    ∧ wPolicies.get_applicable_policy 10001 = some polHigh
    ∧ polLow.is_applicable 500 = true
    ∧ (500 : ℚ) ≤ 1000 :=
  have h := get_applicable_policy_spec wPolicies 500 (by decide)
  have hlow : wPolicies.get_applicable_policy 500 = some polLow := by decide
  have hhigh : wPolicies.get_applicable_policy 10001 = some polHigh := by decide
  have h2 := (h.2.1 polLow hlow).2.1
  ⟨hlow, hhigh, h2, ((h.2.2 polLow).mp h2).2 1000 rfl⟩

/-- Helper: bind on a successful Except computation. -/
theorem except_bind_ok {ε α β : Type} (a : α) (f : α → Except ε β) :
    ((Except.ok a : Except ε α) >>= f) = f a := rfl

/-- Helper: pure in the Except monad is `Except.ok`. -/
theorem except_pure_eq_ok {ε α : Type} (a : α) : (pure a : Except ε α) = Except.ok a := rfl

/-- Helper: the per-invoice three-way-match computation, in the presence of
both reference edges, resolvable amounts, a nonzero PO amount and an
Accepted GR, reduces to the 5%-threshold test. -/
theorem threeWayCheckInvoice_amount_eq (g : KGraph) (inv po_id gr_id : String)
    (ptl gtl : List String) (i p q : ℚ)
    (hpo : (g.edges.filter
        (fun e => e.src == inv && e.relation == "REFERENCES_PO")).map KGEdge.dst
      = po_id :: ptl)
    (hgr : (g.edges.filter
        (fun e => e.src == inv && e.relation == "REFERENCES_GR")).map KGEdge.dst
      = gr_id :: gtl)
    (hi : g.nodeAmount inv = .ok i)
    (hp : g.nodeAmount po_id = .ok p)
    (hq : g.nodeAmount gr_id = .ok q)
    (hs : g.nodeStatus gr_id = .ok "Accepted")
    (hp0 : ¬(p = 0)) :
    threeWayCheckInvoice g inv
      = .ok (if |i - p| / p > 5 / 100 then
               [{ invoice_id := inv, issue_kind := "Invoice amount differs from PO",
                  severity := "MEDIUM", variance_pct := some (|i - p| / p * 100) }]
             else []) := by
  rw [threeWayCheckInvoice]
  simp only [hpo, hgr, hi, hp, hq, hs, except_bind_ok, hp0, ite_false]
  simp [except_bind_ok, except_pure_eq_ok]

/-- C4: for an invoice holding both a REFERENCES_PO and a REFERENCES_GR edge,
with resolvable amounts, a nonzero PO amount and an Accepted GR, the
per-invoice three-way-match check returns exactly one MEDIUM issue carrying
the variance percentage when the relative difference between invoice and PO
amounts exceeds 5%, and no issue otherwise — the MEDIUM issue appears if and
only if the 5% threshold is exceeded; an invoice missing either reference
edge yields the single HIGH missing-reference issue instead; concretely, PO
amount 1000 with invoice amount 1060 yields exactly one MEDIUM issue with
variance_pct = 6, while invoice amount 1040 yields none. -/
theorem three_way_match_amount_rule (g : KGraph) (inv po_id gr_id : String)
    (ptl gtl : List String) (i p q : ℚ)
    (hpo : (g.edges.filter
        (fun e => e.src == inv && e.relation == "REFERENCES_PO")).map KGEdge.dst
      = po_id :: ptl)
    (hgr : (g.edges.filter
        (fun e => e.src == inv && e.relation == "REFERENCES_GR")).map KGEdge.dst
      = gr_id :: gtl)
    (hi : g.nodeAmount inv = .ok i)
    (hp : g.nodeAmount po_id = .ok p)
    (hq : g.nodeAmount gr_id = .ok q)
    (hs : g.nodeStatus gr_id = .ok "Accepted")
    (hp0 : ¬(p = 0)) :
    (threeWayCheckInvoice g inv
        = .ok (if |i - p| / p > 5 / 100 then
                 [{ invoice_id := inv, issue_kind := "Invoice amount differs from PO",
                    severity := "MEDIUM", variance_pct := some (|i - p| / p * 100) }]
               else []))
    ∧ (∀ issues, threeWayCheckInvoice g inv = .ok issues →
        ((∃ iss ∈ issues, iss.severity = "MEDIUM") ↔ 5 / 100 < |i - p| / p))
    ∧ (∀ (g2 : KGraph) (inv2 : String),
        ((g2.edges.filter
            (fun e => e.src == inv2 && e.relation == "REFERENCES_PO")).map KGEdge.dst = []
          ∨ (g2.edges.filter
            (fun e => e.src == inv2 && e.relation == "REFERENCES_GR")).map KGEdge.dst = []) →
        threeWayCheckInvoice g2 inv2
          = .ok [{ invoice_id := inv2, issue_kind := "Missing PO or GR reference",
                   severity := "HIGH", variance_pct := none }])
    ∧ detect_three_way_match_issues g1060
        = .ok [{ invoice_id := "INV1", issue_kind := "Invoice amount differs from PO",
                 severity := "MEDIUM", variance_pct := some 6 }]
    ∧ detect_three_way_match_issues g1040 = .ok [] := by
  have hmain : threeWayCheckInvoice g inv
      = .ok (if |i - p| / p > 5 / 100 then
               [{ invoice_id := inv, issue_kind := "Invoice amount differs from PO",
                  severity := "MEDIUM", variance_pct := some (|i - p| / p * 100) }]
             else []) :=
    threeWayCheckInvoice_amount_eq g inv po_id gr_id ptl gtl i p q hpo hgr hi hp hq hs hp0
  have hmissing : ∀ (g2 : KGraph) (inv2 : String),
      ((g2.edges.filter
          (fun e => e.src == inv2 && e.relation == "REFERENCES_PO")).map KGEdge.dst = []
        ∨ (g2.edges.filter
          (fun e => e.src == inv2 && e.relation == "REFERENCES_GR")).map KGEdge.dst = []) →
      threeWayCheckInvoice g2 inv2
        = .ok [{ invoice_id := inv2, issue_kind := "Missing PO or GR reference",
                 severity := "HIGH", variance_pct := none }] := by
    intro g2 inv2 hmiss
    rw [threeWayCheckInvoice]
    rcases hmiss with hm | hm
    · simp only [hm, except_pure_eq_ok]
    · rw [hm]
      cases hpe : (g2.edges.filter
          (fun e => e.src == inv2 && e.relation == "REFERENCES_PO")).map KGEdge.dst with
      | nil => simp [except_pure_eq_ok]
      | cons hd tl => simp [except_pure_eq_ok]
  refine ⟨hmain, ?_, hmissing, ?_, ?_⟩
  · intro issues hiss
    rw [hmain] at hiss
    by_cases hv : 5 / 100 < |i - p| / p
    · simp only [gt_iff_lt, hv, ite_true] at hiss
      cases hiss
      simp [hv]
    · simp only [gt_iff_lt, hv, ite_false] at hiss
      cases hiss
      simp [hv]
  · have h60 : threeWayCheckInvoice g1060 "INV1"
        = .ok [{ invoice_id := "INV1", issue_kind := "Invoice amount differs from PO",
                 severity := "MEDIUM", variance_pct := some 6 }] := by
      have := threeWayCheckInvoice_amount_eq g1060 "INV1" "PO1" "GR1" [] []
        1060 1000 1000 rfl rfl rfl rfl rfl rfl (by norm_num)
      rw [this]
      norm_num
    rw [detect_three_way_match_issues]
    show threeWayCheckAll g1060 ["INV1"] = _
    rw [threeWayCheckAll, h60]
    rfl
  · have h40 : threeWayCheckInvoice g1040 "INV1" = .ok [] := by
      have := threeWayCheckInvoice_amount_eq g1040 "INV1" "PO1" "GR1" [] []
        1040 1000 1000 rfl rfl rfl rfl rfl rfl (by norm_num)
      rw [this]
      norm_num
    rw [detect_three_way_match_issues]
    show threeWayCheckAll g1040 ["INV1"] = _
    rw [threeWayCheckAll, h40]
    rfl

/-- C4 witness: the theorem applied to the concrete graph `g1060` (PO amount
1000, invoice amount 1060, accepted GR), discharging every hypothesis at that
input. -/
theorem three_way_match_amount_rule_witness :
    detect_three_way_match_issues g1060
      = .ok [{ invoice_id := "INV1", issue_kind := "Invoice amount differs from PO",
               severity := "MEDIUM", variance_pct := some 6 }]
    ∧ detect_three_way_match_issues g1040 = .ok [] :=
  have h := three_way_match_amount_rule g1060 "INV1" "PO1" "GR1" [] [] 1060 1000 1000
    rfl rfl rfl rfl rfl rfl (by decide)
  ⟨h.2.2.2.1, h.2.2.2.2⟩

/-- Supporting fact for the sortedness hypothesis of the policy-lookup
theorem: `add_approval_policy` always leaves the policy list sorted ascending
by `min_amount`, whatever the previous list was. -/
theorem add_approval_policy_sorted (w : P2PWorkflow) (p : ApprovalPolicy) :
    (w.add_approval_policy p).approval_policies.Pairwise
      (fun a b : ApprovalPolicy => a.min_amount ≤ b.min_amount) := by
  haveI hTot : IsTotal ApprovalPolicy (fun a b => a.min_amount ≤ b.min_amount) :=
    ⟨fun a b => le_total _ _⟩
  haveI hTr : IsTrans ApprovalPolicy (fun a b => a.min_amount ≤ b.min_amount) :=
    ⟨fun _ _ _ hab hbc => le_trans hab hbc⟩
  exact List.sorted_insertionSort _ _
